import Mathlib

/-!
Shallow embedding of the casper-context Babel plugin (a source-to-source
compiler pass that rewrites specially prefixed JavaScript variables into
React context/state access).  JavaScript strings are modelled as `List Char`,
the virtual registry as an insertion-ordered association list, and Babel AST
nodes as an untyped inductive mirroring the node shapes the plugin builds
and inspects.  Each definition is translated from the corresponding source
function; the source file and symbol are named in its doc comment.
-/

/-- JavaScript strings, modelled as lists of characters so that the string
operations the source uses (`startsWith`, `endsWith`, `includes`, `replace`,
concatenation) have direct, executable counterparts. -/
abbrev JsStr := List Char

/-- Coercion from Lean string literals into the `JsStr` model. -/
def jstr (s : String) : JsStr := s.toList

/-- JS `s.replace(pat, '')` for a plain (non-regex) search string: removes the
first occurrence of `pat` from `s`, or returns `s` unchanged when `pat` does
not occur.  Used by the source to strip the context-name marker
(`_CCTX_CMP_NAME_PREFIX`) from registry context names. -/
def replaceFirst (s pat : JsStr) : JsStr :=
  match s with
  | [] => []
  | c :: rest =>
    if pat.isPrefixOf (c :: rest) then (c :: rest).drop pat.length
    else c :: replaceFirst rest pat

/-- JS `s[0].toLowerCase() + s.slice(1)` as used throughout `astHelpers`. -/
def lowerFirst (s : JsStr) : JsStr :=
  match s with
  | [] => []
  | c :: rest => c.toLower :: rest

/-- JS `s[0].toUpperCase() + s.slice(1)` as used by
`buildCtxUseStateDeclaration`. -/
def upperFirst (s : JsStr) : JsStr :=
  match s with
  | [] => []
  | c :: rest => c.toUpper :: rest

/-- Primitive JS values reachable as elements of the shallow literal capture
performed by `getVariableInitValue`: literal values, or `null` for a
non-literal array element (`e.value ?? null`). -/
inductive JsPrim where
  | num (n : Int)
  | str (s : JsStr)
  | bool (b : Bool)
  | nullV
deriving DecidableEq

/-- Value classification of a registered default (src/visitors/VariableDeclaration,
`getVariableInitValue`): a primitive literal, a shallow literal array, a shallow
literal object, JS `undefined` (no initializer), or the `NON_LITERAL`
sentinel. -/
inductive JsValue where
  | prim (p : JsPrim)
  | arr (elems : List JsPrim)
  | obj (props : List (JsStr × JsPrim))
  | undef
  | nonLiteral
deriving DecidableEq

/-- Shorthand for a numeric default value. -/
def JsValue.num (n : Int) : JsValue := .prim (.num n)

/-- One registry slot (src/utils/utilityHelpers, shape created by
`registerVariable`): `{ varNames: [], ctxName: null, defaults: {} }`. -/
structure RegEntry where
  varNames : List JsStr
  ctxName : Option JsStr
  defaults : List (JsStr × JsValue)
deriving DecidableEq

/-- The `virtualRegistry`: a plain JS object mapping scope keys
(`componentName_fileHash`, never integer-like) to entries, so `Object.entries`
and `Object.keys` iterate it in insertion order; modelled as an
insertion-ordered association list. -/
abbrev Registry := List (JsStr × RegEntry)

/-- JS property read `virtualRegistry[key]` (first binding of the key wins;
the model never creates duplicate keys). -/
def regLookup (reg : Registry) (key : JsStr) : Option RegEntry :=
  match reg with
  | [] => none
  | (k, e) :: rest => if k = key then some e else regLookup rest key

/-- JS property write `virtualRegistry[key] = e` on an existing key: the
binding is updated in place, keeping its position. -/
def regSet (reg : Registry) (key : JsStr) (e : RegEntry) : Registry :=
  match reg with
  | [] => [(key, e)]
  | (k, e') :: rest => if k = key then (key, e) :: rest else (k, e') :: regSet rest key e

/-- JS `{ ...m, [k]: v }`: an existing binding of `k` keeps its position and
gets the new value; a fresh `k` is appended at the end. -/
def assocSet (m : List (JsStr × JsValue)) (k : JsStr) (v : JsValue) : List (JsStr × JsValue) :=
  match m with
  | [] => [(k, v)]
  | (k', v') :: rest => if k' = k then (k, v) :: rest else (k', v') :: assocSet rest k v

/-- JS association lookup `m[k]` for the defaults object. -/
def assocLookup (m : List (JsStr × JsValue)) (k : JsStr) : Option JsValue :=
  match m with
  | [] => none
  | (k', v) :: rest => if k' = k then some v else assocLookup rest k

/-- The constant `_CCTX_CMP_NAME_PREFIX` from src/utils/constants. -/
def cctxCmpNameMarker : JsStr := jstr ("_$_ctx_")

/-- The constant `_CCTX_` from src/utils/constants (marker of injected
context-instance variables). -/
def cctxMarker : JsStr := jstr ("CTX_")

/-- The default configured variable marker `GLOBAL_PREFIX` from
src/utils/constants. -/
def globalMarker : JsStr := jstr ("_$_")

/-- Scope keys as built at every call site of the registry:
`` `${componentName}_${filePathHASH}` ``. -/
def scopeKey (ownerName fileHash : JsStr) : JsStr := ownerName ++ jstr ("_") ++ fileHash

/-- src/utils/utilityHelpers `registerVariable` (part_001 lines 1109-1135):
creates the entry if absent; if `varName` is already present returns the
existing context name without mutation; otherwise stamps the context name,
appends the variable name and stores the default.  Returns the updated
registry together with the returned context name (`none` models the
JS `undefined` of the unreachable catch path). -/
def registerVariable (componentNameHash varName : JsStr) (defaultValue : JsValue)
    (virtualRegistry : Registry) : Registry × Option JsStr :=
  let reg0 := if (regLookup virtualRegistry componentNameHash).isSome then virtualRegistry
    else virtualRegistry ++ [(componentNameHash, ⟨[], none, []⟩)]
  match regLookup reg0 componentNameHash with
  | none => (reg0, none)
  | some entry =>
    if entry.varNames.contains varName then (reg0, entry.ctxName)
    else
      let ctxName := cctxCmpNameMarker ++ componentNameHash
      let entry' : RegEntry :=
        ⟨entry.varNames ++ [varName], some ctxName, assocSet entry.defaults varName defaultValue⟩
      (regSet reg0 componentNameHash entry', some ctxName)

/-- src/utils/utilityHelpers `findContextByVar` (part_001 lines 1167-1178):
linear scan over `Object.entries(virtualRegistry)`; returns the first
registry key whose `varNames` contains the variable, else `null`. -/
def findContextByVar (varName : JsStr) (virtualRegistry : Registry) : Option JsStr :=
  match virtualRegistry with
  | [] => none
  | (ctxKey, ctxData) :: rest =>
    if ctxData.varNames.contains varName then some ctxKey
    else findContextByVar varName rest

/-- src/utils/utilityHelpers `resetVarsForFile` (part_001 lines 1416-1427):
for every key ending in `` `_${fileHash}` `` the entry's `varNames` and
`defaults` are cleared in place; the entry itself and its `ctxName` are
kept; all other entries are untouched. -/
def resetVarsForFile (virtualRegistry : Registry) (fileHash : JsStr) : Registry :=
  virtualRegistry.map (fun kv =>
    if (jstr ("_") ++ fileHash).isSuffixOf kv.1 then
      (kv.1, { kv.2 with varNames := [], defaults := [] })
    else kv)

example : replaceFirst (jstr ("_$_ctx_Counter")) cctxCmpNameMarker = jstr ("Counter") := by decide

example : replaceFirst (jstr ("Counter_ab12cd34")) cctxCmpNameMarker
    = jstr ("Counter_ab12cd34") := by decide

example :
    (registerVariable (jstr ("Counter_ab12cd34")) (jstr ("_$_count")) (JsValue.num 0) []).1
    = [(jstr ("Counter_ab12cd34"),
        ⟨[jstr ("_$_count")], some (jstr ("_$_ctx_Counter_ab12cd34")),
         [(jstr ("_$_count"), JsValue.num 0)]⟩)] := by decide

/-! ## Babel AST nodes

An untyped inductive mirroring exactly the `@babel/types` node shapes the
plugin builds (`t.callExpression`, `t.objectExpression`, ...) and the shapes it
matches on.  `VariableDeclarator.init`, `ReturnStatement.argument` and
`FunctionDeclaration.idName` are `Option`s because the corresponding Babel
fields are nullable. -/

inductive Node where
  | Identifier (name : JsStr)
  | NumericLiteral (value : Int)
  | StringLiteral (value : JsStr)
  | BooleanLiteral (value : Bool)
  | NullLiteral
  | ArrayExpression (elements : List Node)
  | ObjectExpression (properties : List Node)
  | ObjectProperty (key value : Node) (computed shorthand : Bool)
  | SpreadElement (argument : Node)
  | SequenceExpression (expressions : List Node)
  | MemberExpression (obj property : Node) (computed : Bool)
  | CallExpression (callee : Node) (arguments : List Node)
  | ArrowFunctionExpression (params : List Node) (body : Node)
  | FunctionDeclaration (idName : Option JsStr) (params : List Node) (body : Node)
  | BlockStatement (body : List Node)
  | VariableDeclaration (kind : JsStr) (declarations : List Node)
  | VariableDeclarator (id : Node) (init : Option Node)
  | ArrayPattern (elements : List Node)
  | ExpressionStatement (expression : Node)
  | AssignmentExpression (left right : Node)
  | ReturnStatement (argument : Option Node)

/-! ## Code generation helpers (src/utils/astHelpers) -/

/-- The constant `PREV_STATE` from src/utils/constants. -/
def prevStateName : JsStr := jstr ("prevState")

/-- The constant `_CCTX_UNDUS_CORE_REACT` from src/utils/constants. -/
def undusCoreReact : JsStr := jstr ("_react")

/-- The constant `_CCTX_UNDUS_CORE_GBL_CONTEXT` from src/utils/constants. -/
def undusCoreGblContext : JsStr := jstr ("_gblContext")

/-- The constant `REACT_IMPORT_USE_STATE_HOOKS_NAME` from src/utils/constants. -/
def useStateName : JsStr := jstr ("useState")

/-- The constant `USE_STRICT` from src/utils/constants. -/
def useStrict : JsStr := jstr ("use strict")

/-- Per-file import metadata collected by `importStateResolver`
(src/visitors/Program): the local identifiers bound for a default/namespace
React import and for a named `useState` import, when present. -/
structure ImportState where
  reactId : Option JsStr
  useStateId : Option JsStr
deriving DecidableEq

/-- src/utils/utilityHelpers `resolveReact` (part_001 lines 1370-1389): the
identifier used for `React` in generated code — the imported binding when one
exists, else the injected fallback alias `_react`. -/
def resolveReact (importState : ImportState) : Node :=
  match importState.reactId with
  | some rid => Node.Identifier rid
  | none => Node.Identifier undusCoreReact

/-- src/utils/astHelpers `buildSpreadObject` (part_001 lines 574-595): from an
assignment `left = right`, the functional updater
`(prevState) => ({ ...prevState, [left.name]: right })`. -/
def buildSpreadObject (leftName : JsStr) (assignedValue : Node) : Node :=
  let paramIdentifier := Node.Identifier prevStateName
  let spreadExistingObject := Node.SpreadElement paramIdentifier
  let newProperty := Node.ObjectProperty (Node.Identifier leftName) assignedValue false false
  let returnObject := Node.ObjectExpression [spreadExistingObject, newProperty]
  Node.ArrowFunctionExpression [paramIdentifier] returnObject

/-- src/utils/astHelpers `replaceWithSetState` (part_001 lines 622-631): the
replacement node `` `set${ctxName.replace(_CCTX_CMP_NAME_PREFIX, '')}`(updateFunction) ``. -/
def replaceWithSetState (ctxName : JsStr) (updateFunction : Node) : Node :=
  Node.CallExpression
    (Node.Identifier (jstr ("set") ++ replaceFirst ctxName cctxCmpNameMarker))
    [updateFunction]

/-- src/utils/astHelpers `replaceWithContextSetState` (part_001 lines 687-700):
the replacement node `` `CTX_${ctxName}`.`set${ctxName.replace(...)}`(updateFunction) ``. -/
def replaceWithContextSetState (ctxName : JsStr) (updateFunction : Node) : Node :=
  Node.CallExpression
    (Node.MemberExpression (Node.Identifier (cctxMarker ++ ctxName))
      (Node.Identifier (jstr ("set") ++ replaceFirst ctxName cctxCmpNameMarker)) false)
    [updateFunction]

/-- src/utils/astHelpers `replaceWithState` (part_001 lines 654-660): a read of
`origName` becomes the computed member access `lowercased(ctxName)[origName]`. -/
def replaceWithState (origName ctxName : JsStr) : Node :=
  Node.MemberExpression (Node.Identifier (lowerFirst ctxName)) (Node.StringLiteral origName) true

/-- src/utils/astHelpers `replaceWithContextState` (part_001 lines 723-738): a
foreign read becomes `` `CTX_${ctxName}`.lowercased(ctxName)[origName] ``. -/
def replaceWithContextState (origName ctxName : JsStr) : Node :=
  Node.MemberExpression
    (Node.MemberExpression (Node.Identifier (cctxMarker ++ ctxName))
      (Node.Identifier (lowerFirst ctxName)) false)
    (Node.StringLiteral origName) true

/-- src/utils/astHelpers `buildCtxUseStateDeclaration` (part_001 lines 282-318):
the synthesized reactive-state declaration
`const [key.lowerFirst, set + key.upperFirst] = (0, useState)({...objProps})`,
with the `useState` member resolved from the file's import shape.  The source
mutates the AST by unshifting this declaration into the function body; the
insertion itself is performed by `functionDeclarationExit` below. -/
def buildCtxUseStateDeclaration (importState : ImportState) (objProps : List Node)
    (key : JsStr) : Node :=
  let useStateMembers :=
    match importState.useStateId with
    | some uid => Node.Identifier uid
    | none =>
      match importState.reactId with
      | some rid => Node.MemberExpression (Node.Identifier rid) (Node.Identifier useStateName) false
      | none =>
        Node.MemberExpression (Node.Identifier undusCoreReact) (Node.Identifier useStateName) false
  let useStateSeq := Node.SequenceExpression [Node.NumericLiteral 0, useStateMembers]
  let useStateCall := Node.CallExpression useStateSeq [Node.ObjectExpression objProps]
  Node.VariableDeclaration (jstr ("const"))
    [Node.VariableDeclarator
      (Node.ArrayPattern
        [Node.Identifier (lowerFirst key), Node.Identifier (jstr ("set") ++ upperFirst key)])
      (some useStateCall)]

/-- src/utils/astHelpers `buildCtxProvider` (part_001 lines 214-247): wraps a
(non-JSX) return value in
`React.createElement(_gblContext.<stateName>.Provider, { value: { <state>, set<State> } }, children)`.
(When the return value is a JSX element the source calls the nonexistent
helper `t.jsxElementToReactCreateElement`, which throws and is swallowed by
the surrounding catch, leaving the return untouched; the scenarios modelled
here have non-JSX returns, taking the `: returnNode` branch.) -/
def buildCtxProvider (importState : ImportState) (returnNode : Node) (stateName : JsStr) : Node :=
  let reactName := resolveReact importState
  let childrenExpr := returnNode
  Node.CallExpression
    (Node.MemberExpression reactName (Node.Identifier (jstr ("createElement"))) false)
    [Node.MemberExpression
      (Node.MemberExpression (Node.Identifier undusCoreGblContext)
        (Node.Identifier stateName) false)
      (Node.Identifier (jstr ("Provider"))) false,
     Node.ObjectExpression
      [Node.ObjectProperty (Node.Identifier (jstr ("value")))
        (Node.ObjectExpression
          [Node.ObjectProperty (Node.Identifier (lowerFirst stateName))
            (Node.Identifier (lowerFirst stateName)) false true,
           Node.ObjectProperty (Node.Identifier (jstr ("set") ++ stateName))
            (Node.Identifier (jstr ("set") ++ stateName)) false true])
        false false],
     childrenExpr]

/-- The `require` declaration built by src/utils/astHelpers
`buildRequireDeclaration` (part_001 lines 165-182):
`var <identifier> = require('<stringLit>')`. -/
def mkRequireDeclaration (identifier stringLit : JsStr) : Node :=
  Node.VariableDeclaration (jstr ("var"))
    [Node.VariableDeclarator (Node.Identifier identifier)
      (some (Node.CallExpression (Node.Identifier (jstr ("require")))
        [Node.StringLiteral stringLit]))]

/-- src/utils/astHelpers `buildRequireDeclaration` (part_001 lines 165-182):
`path.unshiftContainer('body', ...)` — the declaration is always prepended at
index 0 of the body. -/
def buildRequireDeclaration (body : List Node) (identifier stringLit : JsStr) : List Node :=
  mkRequireDeclaration identifier stringLit :: body

/-- src/utils/utilityHelpers `getInsertionIndex` (part_001 lines 1239-1253):
index 1 when the first statement is the string-literal expression statement
`'use strict'`, else 0. -/
def getInsertionIndex (body : List Node) : Nat :=
  match body with
  | Node.ExpressionStatement (Node.StringLiteral v) :: _ => if v = useStrict then 1 else 0
  | _ => 0

/-- src/visitors/Program `bindMissingImport` (part_003 lines 234-241): at file
exit, unshift the fallback React require when `needUseStateImport` is set, then
unshift the shared-context require when `needsGblContext` is set.  Both go
through `buildRequireDeclaration`, i.e. to index 0 of the program body. -/
def bindMissingImport (needUseStateImport needsGblContext : Bool) (contextFilePath : JsStr)
    (body : List Node) : List Node :=
  let body1 := if needUseStateImport then
    buildRequireDeclaration body undusCoreReact (jstr ("react")) else body
  if needsGblContext then buildRequireDeclaration body1 undusCoreGblContext contextFilePath
  else body1

/-! ## Reference classification and rewriting (src/visitors/Identifier,
src/visitors/AssignmentExpression) -/

/-- Outcome of the identifier rewrite decision in `identifierVisitor`
(src/visitors/Identifier lines 111-130): the reference is left untouched
(`skip`, when `findContextByVar` finds nothing), replaced through the local
state object (`localState`), or replaced through the injected context-read
binding (`contextState`). -/
inductive RewriteKind where
  | skip
  | localState
  | contextState
deriving DecidableEq

/-- The classification step of `identifierVisitor` (src/visitors/Identifier
lines 112-130): `ctxName = findContextByVar(name)`;
`isSameCMP = ctxName.startsWith(componentName)` where `componentName` is the
root (outermost capitalized) owner of the reference from
`getRootParentComponent`. -/
def classifyReference (name : JsStr) (virtualRegistry : Registry)
    (componentName : JsStr) : RewriteKind :=
  match findContextByVar name virtualRegistry with
  | none => RewriteKind.skip
  | some ctxName =>
    if componentName.isPrefixOf ctxName then RewriteKind.localState
    else RewriteKind.contextState

/-- The syntactic position of an identifier as `identifierVisitor` inspects it:
its parent node's type and the key under which it hangs, whether the parent is
an object property and is computed, the node types of all enclosing ancestors
(for `path.findParent`), and Babel's referenced-identifier test. -/
structure IdentifierPosition where
  name : JsStr
  parentType : JsStr
  parentKey : JsStr
  parentIsObjectProperty : Bool
  parentComputed : Bool
  ancestorTypes : List JsStr
  isReferencedIdentifier : Bool
deriving DecidableEq

/-- The ancestor node types whose presence makes `identifierVisitor` skip the
identifier (src/visitors/Identifier lines 100-106): any markup (JSX) expression
container, attribute, opening/closing element, or member expression. -/
def jsxAncestorKinds : List JsStr :=
  [jstr ("JSXExpressionContainer"), jstr ("JSXAttribute"), jstr ("JSXOpeningElement"),
   jstr ("JSXClosingElement"), jstr ("JSXMemberExpression")]

/-- The guard sequence of `identifierVisitor` (src/visitors/Identifier lines
89-107): the identifier is processed exactly when its name starts with the
configured marker, it is not the binding of its own declaration, not the
target of a plain assignment, not the operand of an increment/decrement, not a
non-computed object-literal key, has no JSX ancestor at all, and is a
referenced identifier. -/
def identifierQualifies (pre : JsStr) (p : IdentifierPosition) : Bool :=
  pre.isPrefixOf p.name &&
  !((p.parentType == jstr ("VariableDeclarator") && p.parentKey == jstr ("id")) ||
    (p.parentType == jstr ("AssignmentExpression") && p.parentKey == jstr ("left")) ||
    (p.parentType == jstr ("UpdateExpression") && p.parentKey == jstr ("argument"))) &&
  !(p.parentIsObjectProperty && p.parentKey == jstr ("key") && !p.parentComputed) &&
  !(p.ancestorTypes.any (fun a => jsxAncestorKinds.contains a)) &&
  p.isReferencedIdentifier

/-! ## Discovery-pass value capture (src/visitors/VariableDeclaration) -/

/-- The `value` property of a literal node, as read by `getVariableInitValue`
for array elements (`e.value ?? null`) and object property values. -/
def literalValue : Node → Option JsPrim
  | Node.NumericLiteral v => some (JsPrim.num v)
  | Node.StringLiteral v => some (JsPrim.str v)
  | Node.BooleanLiteral v => some (JsPrim.bool v)
  | _ => none

/-- JS `prop.key.name || prop.key.value` for an object-literal key (identifier
or string-literal keys, the shapes `getVariableInitValue` reads). -/
def propKeyName : Node → Option JsStr
  | Node.Identifier n => some n
  | Node.StringLiteral v => some v
  | _ => none

/-- src/visitors/VariableDeclaration `getVariableInitValue` (part_003 lines
350-381): primitive literals keep their value; array literals are captured
shallowly with non-literal elements coerced to `null`; object literals keep
only literal-valued properties; a missing initializer gives `undefined`; any
other initializer is the `NON_LITERAL` sentinel. -/
def getVariableInitValue (init : Option Node) : JsValue :=
  match init with
  | none => JsValue.undef
  | some valNode =>
    match valNode with
    | Node.NumericLiteral v => JsValue.prim (JsPrim.num v)
    | Node.StringLiteral v => JsValue.prim (JsPrim.str v)
    | Node.BooleanLiteral v => JsValue.prim (JsPrim.bool v)
    | Node.ArrayExpression es =>
      JsValue.arr (es.map (fun e => (literalValue e).getD JsPrim.nullV))
    | Node.ObjectExpression ps =>
      JsValue.obj (ps.foldr (fun p acc =>
        match p with
        | Node.ObjectProperty k v _ _ =>
          match propKeyName k, literalValue v with
          | some kn, some pv => (kn, pv) :: acc
          | _, _ => acc
        | _ => acc) [])
    | _ => JsValue.nonLiteral

/-! ## Owner-exit synthesis (src/visitors/AssignmentExpression
`functionDeclarationExit`, src/visitors/VariableDeclaration
`functionReturnVariableDelarationVisitor`, src/visitors/ReturnStatement
`functionDeclarationReturnStatementVisitor`)

`functionDeclarationExit` runs `path.traverse({ VariableDeclarator, ReturnStatement })`
over the function body.  Babel's `path.traverse` visits the whole subtree —
every descendant, including the bodies of nested functions.  The mutual
functions below reproduce that: every `VariableDeclarator` whose identifier
matches the marker is recorded as `{name, init}` and removed (the whole
declaration when it was its only declarator), and every `ReturnStatement` with
a non-null argument is wrapped in a context provider (when the registry
entry's `ctxName` is `null` the per-return `replace` call throws and is caught,
leaving that return untouched — modelled by the `stateNameOpt = none` branch).
Wrapping is applied after descending into the original argument; the provider
scaffolding itself contains no declarators, so the collected set matches the
source's in-place mutation order. -/

mutual

/-- Traversal of one node under `functionDeclarationExit`'s `path.traverse`. -/
def exitTraverseNode (pre : JsStr) (imp : ImportState) (stateNameOpt : Option JsStr) :
    Node → List (JsStr × Option Node) × Node
  | Node.Identifier n => ([], Node.Identifier n)
  | Node.NumericLiteral v => ([], Node.NumericLiteral v)
  | Node.StringLiteral v => ([], Node.StringLiteral v)
  | Node.BooleanLiteral v => ([], Node.BooleanLiteral v)
  | Node.NullLiteral => ([], Node.NullLiteral)
  | Node.ArrayExpression es =>
    let r := exitTraverseNodes pre imp stateNameOpt es
    (r.1, Node.ArrayExpression r.2)
  | Node.ObjectExpression ps =>
    let r := exitTraverseNodes pre imp stateNameOpt ps
    (r.1, Node.ObjectExpression r.2)
  | Node.ObjectProperty k v comp sh =>
    let rk := exitTraverseNode pre imp stateNameOpt k
    let rv := exitTraverseNode pre imp stateNameOpt v
    (rk.1 ++ rv.1, Node.ObjectProperty rk.2 rv.2 comp sh)
  | Node.SpreadElement a =>
    let r := exitTraverseNode pre imp stateNameOpt a
    (r.1, Node.SpreadElement r.2)
  | Node.SequenceExpression es =>
    let r := exitTraverseNodes pre imp stateNameOpt es
    (r.1, Node.SequenceExpression r.2)
  | Node.MemberExpression o p comp =>
    let ro := exitTraverseNode pre imp stateNameOpt o
    let rp := exitTraverseNode pre imp stateNameOpt p
    (ro.1 ++ rp.1, Node.MemberExpression ro.2 rp.2 comp)
  | Node.CallExpression f as =>
    let rf := exitTraverseNode pre imp stateNameOpt f
    let ra := exitTraverseNodes pre imp stateNameOpt as
    (rf.1 ++ ra.1, Node.CallExpression rf.2 ra.2)
  | Node.ArrowFunctionExpression ps b =>
    let r := exitTraverseNode pre imp stateNameOpt b
    (r.1, Node.ArrowFunctionExpression ps r.2)
  | Node.FunctionDeclaration n ps b =>
    let r := exitTraverseNode pre imp stateNameOpt b
    (r.1, Node.FunctionDeclaration n ps r.2)
  | Node.BlockStatement stmts =>
    let r := exitTraverseStmts pre imp stateNameOpt stmts
    (r.1, Node.BlockStatement r.2)
  | Node.VariableDeclaration kind decls =>
    let r := exitTraverseDecls pre imp stateNameOpt decls
    (r.1, Node.VariableDeclaration kind r.2)
  | Node.VariableDeclarator i init => ([], Node.VariableDeclarator i init)
  | Node.ArrayPattern es => ([], Node.ArrayPattern es)
  | Node.ExpressionStatement e =>
    let r := exitTraverseNode pre imp stateNameOpt e
    (r.1, Node.ExpressionStatement r.2)
  | Node.AssignmentExpression l rhs =>
    let rl := exitTraverseNode pre imp stateNameOpt l
    let rr := exitTraverseNode pre imp stateNameOpt rhs
    (rl.1 ++ rr.1, Node.AssignmentExpression rl.2 rr.2)
  | Node.ReturnStatement none => ([], Node.ReturnStatement none)
  | Node.ReturnStatement (some a) =>
    let r := exitTraverseNode pre imp stateNameOpt a
    match stateNameOpt with
    | none => (r.1, Node.ReturnStatement (some r.2))
    | some stateName => (r.1, Node.ReturnStatement (some (buildCtxProvider imp r.2 stateName)))

/-- Traversal of a generic child-node list. -/
def exitTraverseNodes (pre : JsStr) (imp : ImportState) (stateNameOpt : Option JsStr) :
    List Node → List (JsStr × Option Node) × List Node
  | [] => ([], [])
  | n :: rest =>
    let rn := exitTraverseNode pre imp stateNameOpt n
    let rr := exitTraverseNodes pre imp stateNameOpt rest
    (rn.1 ++ rr.1, rn.2 :: rr.2)

/-- Traversal of a statement list: a `VariableDeclaration` all of whose
declarators were removed is removed as a whole (`path.parentPath.remove()`). -/
def exitTraverseStmts (pre : JsStr) (imp : ImportState) (stateNameOpt : Option JsStr) :
    List Node → List (JsStr × Option Node) × List Node
  | [] => ([], [])
  | Node.VariableDeclaration kind decls :: rest =>
    let rd := exitTraverseDecls pre imp stateNameOpt decls
    let rr := exitTraverseStmts pre imp stateNameOpt rest
    if rd.2.isEmpty then (rd.1 ++ rr.1, rr.2)
    else (rd.1 ++ rr.1, Node.VariableDeclaration kind rd.2 :: rr.2)
  | s :: rest =>
    let rs := exitTraverseNode pre imp stateNameOpt s
    let rr := exitTraverseStmts pre imp stateNameOpt rest
    (rs.1 ++ rr.1, rs.2 :: rr.2)

/-- Traversal of the declarators of one `VariableDeclaration`, implementing
`functionReturnVariableDelarationVisitor` (src/visitors/VariableDeclaration
lines 464-483): a matched identifier declarator is recorded and removed
(without descending into its initializer, which leaves the tree with it); any
other declarator is kept and its initializer traversed. -/
def exitTraverseDecls (pre : JsStr) (imp : ImportState) (stateNameOpt : Option JsStr) :
    List Node → List (JsStr × Option Node) × List Node
  | [] => ([], [])
  | Node.VariableDeclarator (Node.Identifier idName) init :: rest =>
    if pre.isPrefixOf idName then
      let rr := exitTraverseDecls pre imp stateNameOpt rest
      ((idName, init) :: rr.1, rr.2)
    else
      let ri : List (JsStr × Option Node) × Option Node :=
        match init with
        | none => ([], none)
        | some i =>
          let r := exitTraverseNode pre imp stateNameOpt i
          (r.1, some r.2)
      let rr := exitTraverseDecls pre imp stateNameOpt rest
      (ri.1 ++ rr.1, Node.VariableDeclarator (Node.Identifier idName) ri.2 :: rr.2)
  | d :: rest =>
    let rd := exitTraverseNode pre imp stateNameOpt d
    let rr := exitTraverseDecls pre imp stateNameOpt rest
    (rd.1 ++ rr.1, rd.2 :: rr.2)

end

/-- src/visitors/AssignmentExpression `functionDeclarationExit` (lines
174-202): at the exit of a named function declaration whose registry entry
(keyed `` `${name}_${fileHash}` ``) has registered variables, traverse the body
collecting and removing matched local declarations and wrapping returns; if
any variable was collected, synthesize the reactive-state declaration from the
collected `{name, init}` pairs and unshift it into the body.  Any other node,
a nameless function, or an absent/empty registry entry leaves the node
unchanged (note: the traversal's return wrapping has already mutated the body
even when no variable was collected). -/
def functionDeclarationExit (pre : JsStr) (imp : ImportState) (fileHash : JsStr)
    (virtualRegistry : Registry) : Node → Node
  | Node.FunctionDeclaration (some name) params (Node.BlockStatement body) =>
    let key := scopeKey name fileHash
    match regLookup virtualRegistry key with
    | none => Node.FunctionDeclaration (some name) params (Node.BlockStatement body)
    | some entry =>
      if entry.varNames.isEmpty then
        Node.FunctionDeclaration (some name) params (Node.BlockStatement body)
      else
        let stateNameOpt := entry.ctxName.map (fun c => replaceFirst c cctxCmpNameMarker)
        let r := exitTraverseStmts pre imp stateNameOpt body
        if r.1.isEmpty then
          Node.FunctionDeclaration (some name) params (Node.BlockStatement r.2)
        else
          let objProps := r.1.map (fun v =>
            Node.ObjectProperty (Node.Identifier v.1) (v.2.getD Node.NullLiteral) false false)
          let stateDecl := buildCtxUseStateDeclaration imp objProps key
          Node.FunctionDeclaration (some name) params (Node.BlockStatement (stateDecl :: r.2))
  | fn => fn

/-! ## Discovery pass (src/visitors/VariableDeclaration
`variableDeclarationVisitor` with src/utils/astHelpers
`getInheritantDecComponent`)

`getInheritantDecComponent` walks outward from a declarator to the nearest
enclosing function: a function declaration yields its name (or the
`anonymous_function` placeholder), a function/arrow expression bound by a
variable declarator yields the declarator's name, an assignment-bound one hits
the `t.isIdentifier` call with `t` not in scope (a `ReferenceError`, swallowed
by the catch, so the owner comes back `undefined` and registration is
skipped), and any other arrow yields `anonymous_function`.  The traversal
below carries that owner downward as `inh`; `variableDeclarationVisitor`
registers every marker-matching identifier declarator under
`` `${owner}_${fileHash}` `` when an owner exists, and traversal always
continues into children. -/

/-- The constant `ANONYMOUS_FUNCTION` from src/utils/constants. -/
def anonymousFunction : JsStr := jstr ("anonymous_function")

mutual

/-- Discovery traversal of one node, threading the registry. -/
def discoverNode (pre fileHash : JsStr) (inh : Option JsStr) (reg : Registry) : Node → Registry
  | Node.Identifier _ => reg
  | Node.NumericLiteral _ => reg
  | Node.StringLiteral _ => reg
  | Node.BooleanLiteral _ => reg
  | Node.NullLiteral => reg
  | Node.ArrayExpression es => discoverNodes pre fileHash inh reg es
  | Node.ObjectExpression ps => discoverNodes pre fileHash inh reg ps
  | Node.ObjectProperty k v _ _ =>
    discoverNode pre fileHash inh (discoverNode pre fileHash inh reg k) v
  | Node.SpreadElement a => discoverNode pre fileHash inh reg a
  | Node.SequenceExpression es => discoverNodes pre fileHash inh reg es
  | Node.MemberExpression o p _ =>
    discoverNode pre fileHash inh (discoverNode pre fileHash inh reg o) p
  | Node.CallExpression f as =>
    discoverNodes pre fileHash inh (discoverNode pre fileHash inh reg f) as
  | Node.ArrowFunctionExpression _ b => discoverNode pre fileHash (some anonymousFunction) reg b
  | Node.FunctionDeclaration n _ b =>
    discoverNode pre fileHash (some (n.getD anonymousFunction)) reg b
  | Node.BlockStatement stmts => discoverNodes pre fileHash inh reg stmts
  | Node.VariableDeclaration _ decls => discoverDecls pre fileHash inh reg decls
  | Node.VariableDeclarator _ none => reg
  | Node.VariableDeclarator _ (some i) => discoverNode pre fileHash inh reg i
  | Node.ArrayPattern _ => reg
  | Node.ExpressionStatement e => discoverNode pre fileHash inh reg e
  | Node.AssignmentExpression l r =>
    let reg1 := discoverNode pre fileHash inh reg l
    match r with
    | Node.ArrowFunctionExpression _ b => discoverNode pre fileHash none reg1 b
    | other => discoverNode pre fileHash inh reg1 other
  | Node.ReturnStatement none => reg
  | Node.ReturnStatement (some a) => discoverNode pre fileHash inh reg a

/-- Discovery traversal of a child-node list. -/
def discoverNodes (pre fileHash : JsStr) (inh : Option JsStr) (reg : Registry) :
    List Node → Registry
  | [] => reg
  | n :: rest => discoverNodes pre fileHash inh (discoverNode pre fileHash inh reg n) rest

/-- Discovery over one declaration's declarators: marker-matching identifier
declarators with a resolved owner are registered; an arrow initializer gives
nested declarators this declarator's name as their owner. -/
def discoverDecls (pre fileHash : JsStr) (inh : Option JsStr) (reg : Registry) :
    List Node → Registry
  | [] => reg
  | Node.VariableDeclarator (Node.Identifier v) init :: rest =>
    let reg1 := if pre.isPrefixOf v then
        match inh with
        | some cmp =>
          (registerVariable (scopeKey cmp fileHash) v (getVariableInitValue init) reg).1
        | none => reg
      else reg
    let reg2 := match init with
      | some (Node.ArrowFunctionExpression _ b) => discoverNode pre fileHash (some v) reg1 b
      | some i => discoverNode pre fileHash inh reg1 i
      | none => reg1
    discoverDecls pre fileHash inh reg2 rest
  | d :: rest =>
    discoverDecls pre fileHash inh (discoverNode pre fileHash inh reg d) rest

end

/-! ## Rewrite-pass synthesis dispatch (src plugin entry, part_002)

The plugin's visitor table attaches the owner-exit synthesis exclusively to
`FunctionDeclaration` nodes (`FunctionDeclaration: { exit }`); no exit handler
exists for arrow or function expressions.  The traversal below applies
`functionDeclarationExit` at every function declaration, children first
(Babel's exit order), and merely recurses everywhere else. -/

mutual

/-- Synthesis dispatch over one node. -/
def applySynthesisNode (pre : JsStr) (imp : ImportState) (fileHash : JsStr) (reg : Registry) :
    Node → Node
  | Node.Identifier n => Node.Identifier n
  | Node.NumericLiteral v => Node.NumericLiteral v
  | Node.StringLiteral v => Node.StringLiteral v
  | Node.BooleanLiteral v => Node.BooleanLiteral v
  | Node.NullLiteral => Node.NullLiteral
  | Node.ArrayExpression es => Node.ArrayExpression (applySynthesisNodes pre imp fileHash reg es)
  | Node.ObjectExpression ps => Node.ObjectExpression (applySynthesisNodes pre imp fileHash reg ps)
  | Node.ObjectProperty k v comp sh =>
    Node.ObjectProperty (applySynthesisNode pre imp fileHash reg k)
      (applySynthesisNode pre imp fileHash reg v) comp sh
  | Node.SpreadElement a => Node.SpreadElement (applySynthesisNode pre imp fileHash reg a)
  | Node.SequenceExpression es =>
    Node.SequenceExpression (applySynthesisNodes pre imp fileHash reg es)
  | Node.MemberExpression o p comp =>
    Node.MemberExpression (applySynthesisNode pre imp fileHash reg o)
      (applySynthesisNode pre imp fileHash reg p) comp
  | Node.CallExpression f as =>
    Node.CallExpression (applySynthesisNode pre imp fileHash reg f)
      (applySynthesisNodes pre imp fileHash reg as)
  | Node.ArrowFunctionExpression ps b =>
    Node.ArrowFunctionExpression ps (applySynthesisNode pre imp fileHash reg b)
  | Node.FunctionDeclaration n ps b =>
    functionDeclarationExit pre imp fileHash reg
      (Node.FunctionDeclaration n ps (applySynthesisNode pre imp fileHash reg b))
  | Node.BlockStatement stmts =>
    Node.BlockStatement (applySynthesisNodes pre imp fileHash reg stmts)
  | Node.VariableDeclaration kind decls =>
    Node.VariableDeclaration kind (applySynthesisNodes pre imp fileHash reg decls)
  | Node.VariableDeclarator i none =>
    Node.VariableDeclarator (applySynthesisNode pre imp fileHash reg i) none
  | Node.VariableDeclarator i (some init) =>
    Node.VariableDeclarator (applySynthesisNode pre imp fileHash reg i)
      (some (applySynthesisNode pre imp fileHash reg init))
  | Node.ArrayPattern es => Node.ArrayPattern (applySynthesisNodes pre imp fileHash reg es)
  | Node.ExpressionStatement e =>
    Node.ExpressionStatement (applySynthesisNode pre imp fileHash reg e)
  | Node.AssignmentExpression l r =>
    Node.AssignmentExpression (applySynthesisNode pre imp fileHash reg l)
      (applySynthesisNode pre imp fileHash reg r)
  | Node.ReturnStatement none => Node.ReturnStatement none
  | Node.ReturnStatement (some a) =>
    Node.ReturnStatement (some (applySynthesisNode pre imp fileHash reg a))

/-- Synthesis dispatch over a node list. -/
def applySynthesisNodes (pre : JsStr) (imp : ImportState) (fileHash : JsStr) (reg : Registry) :
    List Node → List Node
  | [] => []
  | n :: rest =>
    applySynthesisNode pre imp fileHash reg n :: applySynthesisNodes pre imp fileHash reg rest

end

/-! ## Error neutralization (cross-cutting `try { ... } catch (e) { }`)

Every operation of the pass wraps its whole body in `try { ... } catch (e) { }`
with an empty handler.  A fallible body is modelled as an `Except` value whose
error constructor stands for a thrown JS exception (fallible sub-steps such as
the owner resolution of `getRootParentComponent` or a filesystem write are
passed in as `Except`-valued oracles so that every possible internal failure
is covered); the catch is modelled by `tryCatchD`, and an operation that
"returns normally" is one whose result is `Except.ok`. -/

/-- Thrown JS exceptions distinguishable in the source. -/
inductive JsError where
  | referenceError
  | typeError
  | fsError
deriving DecidableEq

/-- JS `try { body } catch (e) { }` returning `fallback` (the state of the
result when the handler swallows the exception). -/
def tryCatchD {α : Type} (body : Except JsError α) (fallback : α) : α :=
  match body with
  | Except.ok a => a
  | Except.error _ => fallback

/-- What `identifierVisitor` did to the node: left it untouched, replaced it
through the local state object, or replaced it through the context-read
binding. -/
inductive RewriteAction where
  | noop
  | replacedLocal (result : Node)
  | replacedContext (result : Node)

/-- src/visitors/Identifier `identifierVisitor` (lines 85-136) as a fallible
operation: the guard sequence, then the owner resolution (whose outcome,
including an internal throw, is the oracle `rootResult`; `undefined`
destructuring or any throw inside it surfaces here as `Except.error`), then
classification and replacement — the whole body inside the outermost
`try`/`catch` whose empty handler leaves the node untouched.  A `null`
`componentName` is coerced by JS `startsWith` to the string `"null"`. -/
def identifierVisitorOp (pre : JsStr) (pos : IdentifierPosition)
    (rootResult : Except JsError (Option JsStr)) (reg : Registry) :
    Except JsError RewriteAction :=
  Except.ok (tryCatchD
    (if identifierQualifies pre pos then do
      let componentName ← rootResult
      let cn := componentName.getD (jstr ("null"))
      match findContextByVar pos.name reg with
      | none => pure RewriteAction.noop
      | some ctxName =>
        if cn.isPrefixOf ctxName then
          pure (RewriteAction.replacedLocal (replaceWithState pos.name ctxName))
        else pure (RewriteAction.replacedContext (replaceWithContextState pos.name ctxName))
    else pure RewriteAction.noop)
    RewriteAction.noop)

/-- src/visitors/AssignmentExpression `assignmentExpressionVisitor` (lines
59-95) as a fallible operation, for an assignment `leftName = right`:
the marker check on the left-hand name, `findContextByVar` (untouched when
`null`), the owner resolution (oracle `rootResult`, as in
`identifierVisitorOp`), and then line 69 — `inheritantCMP = componentName` —
which assigns to an identifier declared nowhere in the module.  The file is an
ES module and module code is always strict-mode code, so this write throws
`ReferenceError`; the visitor's empty catch swallows it and the assignment is
left untouched.  The statements of lines 70-89 are kept after the throw for
the diff against the source, but are unreachable: they would return the local
setter call `` `set${ctxName}`(buildSpreadObject(...)) `` or the context
setter call, with `ctxName` the registry scope key. -/
def assignmentExpressionVisitorOp (pre leftName : JsStr) (right : Node)
    (rootResult : Except JsError (Option JsStr)) (reg : Registry) :
    Except JsError (Option Node) :=
  Except.ok (tryCatchD
    (if pre.isPrefixOf leftName then do
      match findContextByVar leftName reg with
      | none => pure none
      | some ctxName => do
        let componentName ← rootResult
        throw JsError.referenceError
        match componentName with
        | none => pure none
        | some inheritantCMP =>
          let updateFunction := buildSpreadObject leftName right
          if inheritantCMP.isPrefixOf ctxName then
            pure (some (replaceWithSetState ctxName updateFunction))
          else
            pure (some (replaceWithContextSetState ctxName updateFunction))
    else pure none)
    none)

/-- src/utils/utilityHelpers `registerVariable` as a fallible operation: its
body is total in the model, and the whole of it sits inside the
`try`/`catch` whose handler returns `undefined` leaving the registry as it
was. -/
def registerVariableOp (componentNameHash varName : JsStr) (defaultValue : JsValue)
    (reg : Registry) : Except JsError (Registry × Option JsStr) :=
  Except.ok (tryCatchD
    (Except.ok (registerVariable componentNameHash varName defaultValue reg))
    (reg, none))

/-- src/lifecycle/post `generateContextContent` (lines 74-101): clears the
context file, returns early on an empty registry, then writes the generated
module; both filesystem writes may throw (`fsWrite1`, `fsWrite2`) inside the
function's own `try`/`catch`. -/
def generateContextContentOp (fsWrite1 fsWrite2 : Except JsError Unit) (reg : Registry) :
    Except JsError Unit :=
  Except.ok (tryCatchD
    (do
      fsWrite1
      if reg.length = 0 then pure () else fsWrite2)
    ())

/-- src/lifecycle/post `generateLintGlobalJS` (lines 156-175): returns early on
an empty registry, then reads the current allowlist and conditionally
rewrites it; the filesystem steps may throw (`fsRead`, `fsWrite`) inside the
function's own `try`/`catch`. -/
def generateLintGlobalJSOp (fsRead fsWrite : Except JsError Unit) (reg : Registry) :
    Except JsError Unit :=
  Except.ok (tryCatchD
    (do
      if reg.length = 0 then pure ()
      else do
        fsRead
        fsWrite)
    ())

/-- src/lifecycle/post `postProcess` (lines 224-231): runs both artifact
emitters inside one more `try`/`catch`. -/
def postProcessOp (fsWrite1 fsWrite2 fsRead fsWrite3 : Except JsError Unit) (reg : Registry) :
    Except JsError Unit :=
  Except.ok (tryCatchD
    (do
      let _ ← generateContextContentOp fsWrite1 fsWrite2 reg
      let _ ← generateLintGlobalJSOp fsRead fsWrite3 reg
      pure ())
    ())

/-! ## Registry lemmas -/

/-- Updating a key and looking it up yields the written entry. -/
theorem regLookup_regSet_self (reg : Registry) (k : JsStr) (e : RegEntry) :
    regLookup (regSet reg k e) k = some e := by
  induction reg with
  | nil => simp [regSet, regLookup]
  | cons kv rest ih =>
    obtain ⟨k', e'⟩ := kv
    by_cases h : k' = k
    · simp [regSet, regLookup, h]
    · simp [regSet, regLookup, h, ih]

/-- Appending a fresh binding makes it visible to lookup. -/
theorem regLookup_append_absent (reg : Registry) (k : JsStr) (e : RegEntry)
    (h : regLookup reg k = none) : regLookup (reg ++ [(k, e)]) k = some e := by
  induction reg with
  | nil => simp [regLookup]
  | cons kv rest ih =>
    obtain ⟨k', e'⟩ := kv
    by_cases hk : k' = k
    · simp [regLookup, hk] at h
    · simp only [List.cons_append, regLookup, hk, if_false]
      simp only [regLookup, hk, if_false] at h
      exact ih h

/-- Writing into the defaults object and reading the same key back. -/
theorem assocLookup_assocSet_self (m : List (JsStr × JsValue)) (k : JsStr) (v : JsValue) :
    assocLookup (assocSet m k v) k = some v := by
  induction m with
  | nil => simp [assocSet, assocLookup]
  | cons kv rest ih =>
    obtain ⟨k', v'⟩ := kv
    by_cases h : k' = k
    · simp [assocSet, assocLookup, h]
    · simp [assocSet, assocLookup, h, ih]

/-- First registration of a variable that is not yet in its entry: the entry
gets the variable appended, the context name stamped, and the default stored;
the context name is returned. -/
theorem registerVariable_fresh (K v : JsStr) (d : JsValue) (reg : Registry)
    (h : ∀ e, regLookup reg K = some e → v ∉ e.varNames) :
    regLookup (registerVariable K v d reg).1 K =
      some ⟨((regLookup reg K).getD ⟨[], none, []⟩).varNames ++ [v],
            some (cctxCmpNameMarker ++ K),
            assocSet ((regLookup reg K).getD ⟨[], none, []⟩).defaults v d⟩ ∧
    (registerVariable K v d reg).2 = some (cctxCmpNameMarker ++ K) := by
  unfold registerVariable
  cases hK : regLookup reg K with
  | none =>
    have h0 : regLookup (reg ++ [(K, (⟨[], none, []⟩ : RegEntry))]) K =
        some ⟨[], none, []⟩ := regLookup_append_absent reg K _ hK
    simp only [hK, Option.isSome_none, Bool.false_eq_true, if_false, h0, Option.getD_none]
    simp [regLookup_regSet_self]
  | some e =>
    have hv : v ∉ e.varNames := h e hK
    have hc : e.varNames.contains v = false := by simpa using hv
    simp only [hK, Option.isSome_some, if_true, hc, Bool.false_eq_true, if_false,
      Option.getD_some]
    simp [regLookup_regSet_self]

/-- Re-registration of a variable already present in its entry is a pure
no-op returning the existing context name. -/
theorem registerVariable_mem (K v : JsStr) (d : JsValue) (reg : Registry) (e : RegEntry)
    (hl : regLookup reg K = some e) (hv : v ∈ e.varNames) :
    registerVariable K v d reg = (reg, e.ctxName) := by
  unfold registerVariable
  have hc : e.varNames.contains v = true := by simpa using hv
  simp only [hl, Option.isSome_some, if_true]
  rw [if_pos hc]

/-- C6: registering `(K, v, d1)` and then `(K, v, d2)` leaves `v` exactly once
in the entry's variable-name list, keeps the first default `d1`, and the
second call returns the entry's existing context name
(`` `_$_ctx_${K}` ``). -/
theorem C6_register_idempotent (K v : JsStr) (d1 d2 : JsValue) (reg : Registry)
    (h : ∀ e, regLookup reg K = some e → v ∉ e.varNames) :
    ∃ e, regLookup (registerVariable K v d2 (registerVariable K v d1 reg).1).1 K = some e ∧
      e.varNames.count v = 1 ∧
      assocLookup e.defaults v = some d1 ∧
      (registerVariable K v d2 (registerVariable K v d1 reg).1).2 = e.ctxName ∧
      e.ctxName = some (cctxCmpNameMarker ++ K) := by
  obtain ⟨h1, _⟩ := registerVariable_fresh K v d1 reg h
  set e0 : RegEntry := (regLookup reg K).getD ⟨[], none, []⟩ with he0
  have hv0 : v ∉ e0.varNames := by
    cases hK : regLookup reg K with
    | none => simp [he0, hK, RegEntry.varNames]
    | some e => simpa [he0, hK] using h e hK
  set e1 : RegEntry :=
    ⟨e0.varNames ++ [v], some (cctxCmpNameMarker ++ K), assocSet e0.defaults v d1⟩ with he1
  have hv1 : v ∈ e1.varNames := by simp [he1]
  have h2 := registerVariable_mem K v d2 (registerVariable K v d1 reg).1 e1 h1 hv1
  refine ⟨e1, ?_, ?_, ?_, ?_, ?_⟩
  · rw [h2]; exact h1
  · have : e0.varNames.count v = 0 := List.count_eq_zero.mpr hv0
    simp [he1, List.count_append, this]
  · simp [he1, assocLookup_assocSet_self]
  · rw [h2]
  · simp [he1]

/-- Witness for C6 at a concrete input: fresh registry, two registrations of
`_$_count` under `Counter_ab12cd34` with defaults `0` and then `5`. -/
theorem C6_register_idempotent_witness :
    (∀ e, regLookup [] (jstr ("Counter_ab12cd34")) = some e → jstr ("_$_count") ∉ e.varNames) ∧
    ∃ e, regLookup (registerVariable (jstr ("Counter_ab12cd34")) (jstr ("_$_count"))
        (JsValue.num 5)
        (registerVariable (jstr ("Counter_ab12cd34")) (jstr ("_$_count")) (JsValue.num 0) []).1).1
        (jstr ("Counter_ab12cd34")) = some e ∧
      e.varNames.count (jstr ("_$_count")) = 1 ∧
      assocLookup e.defaults (jstr ("_$_count")) = some (JsValue.num 0) ∧
      (registerVariable (jstr ("Counter_ab12cd34")) (jstr ("_$_count")) (JsValue.num 5)
        (registerVariable (jstr ("Counter_ab12cd34")) (jstr ("_$_count")) (JsValue.num 0) []).1).2
        = e.ctxName ∧
      e.ctxName = some (cctxCmpNameMarker ++ jstr ("Counter_ab12cd34")) :=
  ⟨fun e hx => by simp [regLookup] at hx,
   C6_register_idempotent (jstr ("Counter_ab12cd34")) (jstr ("_$_count"))
     (JsValue.num 0) (JsValue.num 5) [] (fun e hx => by simp [regLookup] at hx)⟩

/-- Unfolding of the per-file reset over a cons cell. -/
theorem resetVarsForFile_cons (k' : JsStr) (e'' : RegEntry) (rest : Registry)
    (fileHash : JsStr) :
    resetVarsForFile ((k', e'') :: rest) fileHash =
      (if (jstr ("_") ++ fileHash).isSuffixOf k' then
        (k', { e'' with varNames := [], defaults := [] }) else (k', e'')) ::
      resetVarsForFile rest fileHash := rfl

/-- C7: the per-file reset keeps the key list identical, and for every entry:
a key ending in `` `_${fileHash}` `` has its variable list and defaults
emptied with its context name unchanged, while any other entry is returned
verbatim. -/
theorem C7_reset_frame (reg : Registry) (fileHash k : JsStr) (e : RegEntry)
    (h : regLookup reg k = some e) :
    ((resetVarsForFile reg fileHash).map Prod.fst = reg.map Prod.fst) ∧
    ∃ e', regLookup (resetVarsForFile reg fileHash) k = some e' ∧
      e'.ctxName = e.ctxName ∧
      ((jstr ("_") ++ fileHash).isSuffixOf k = true → e'.varNames = [] ∧ e'.defaults = []) ∧
      ((jstr ("_") ++ fileHash).isSuffixOf k = false → e' = e) := by
  constructor
  · unfold resetVarsForFile
    rw [List.map_map]
    refine List.map_congr_left ?_
    intro kv _
    cases hc : (jstr ("_") ++ fileHash).isSuffixOf kv.1 <;>
      simp only [Function.comp_apply] <;> rw [hc] <;> simp
  · induction reg with
    | nil => simp [regLookup] at h
    | cons kv rest ih =>
      obtain ⟨k', e''⟩ := kv
      by_cases hk : k' = k
      · subst hk
        simp only [regLookup, if_true] at h
        obtain rfl : e'' = e := by simpa using h
        rw [resetVarsForFile_cons]
        cases hsb : (jstr ("_") ++ fileHash).isSuffixOf k' with
        | true =>
          refine ⟨{ e'' with varNames := [], defaults := [] }, ?_, rfl, fun _ => ⟨rfl, rfl⟩,
            fun hf => Bool.noConfusion hf⟩
          simp [regLookup]
        | false =>
          refine ⟨e'', ?_, rfl, fun ht => Bool.noConfusion ht, fun _ => rfl⟩
          simp [regLookup]
      · simp only [regLookup, hk, if_false] at h
        obtain ⟨e', h1, h2, h3, h4⟩ := ih h
        refine ⟨e', ?_, h2, h3, h4⟩
        rw [resetVarsForFile_cons]
        cases hsb : (jstr ("_") ++ fileHash).isSuffixOf k' with
        | true => simpa [regLookup, hk] using h1
        | false => simpa [regLookup, hk] using h1

/-- Entry used by the C7 witness: the `Counter` slot of file hash `ab12cd34`. -/
def c7Entry : RegEntry :=
  ⟨[jstr ("_$_count")], some (jstr ("_$_ctx_Counter_ab12cd34")),
    [(jstr ("_$_count"), JsValue.num 0)]⟩

/-- Registry used by the C7 witness: one entry of the file being reset and one
entry of another file. -/
def c7Reg : Registry :=
  [(jstr ("Counter_ab12cd34"), c7Entry),
   (jstr ("Admin_99999999"),
    ⟨[jstr ("_$_adminName")], some (jstr ("_$_ctx_Admin_99999999")), []⟩)]

/-- Witness for C7 at a concrete registry: the matching entry queried after
`resetVarsForFile` of hash `ab12cd34`. -/
theorem C7_reset_frame_witness :
    regLookup c7Reg (jstr ("Counter_ab12cd34")) = some c7Entry ∧
    (((resetVarsForFile c7Reg (jstr ("ab12cd34"))).map Prod.fst = c7Reg.map Prod.fst) ∧
    ∃ e', regLookup (resetVarsForFile c7Reg (jstr ("ab12cd34")))
        (jstr ("Counter_ab12cd34")) = some e' ∧
      e'.ctxName = c7Entry.ctxName ∧
      ((jstr ("_") ++ jstr ("ab12cd34")).isSuffixOf (jstr ("Counter_ab12cd34")) = true →
        e'.varNames = [] ∧ e'.defaults = []) ∧
      ((jstr ("_") ++ jstr ("ab12cd34")).isSuffixOf (jstr ("Counter_ab12cd34")) = false →
        e' = c7Entry)) :=
  ⟨by decide,
   C7_reset_frame c7Reg (jstr ("ab12cd34")) (jstr ("Counter_ab12cd34")) c7Entry (by decide)⟩

/-! ## Locality classification (C1) -/

/-- Every owner name is a prefix of its own scope key. -/
theorem self_isPrefixOf_scopeKey (A h : JsStr) : A.isPrefixOf (scopeKey A h) = true := by
  refine List.isPrefixOf_iff_prefix.mpr ?_
  unfold scopeKey
  rw [List.append_assoc]
  exact List.prefix_append A _

/-- Registry in which owner `Counter` (file hash `ab12cd34`) declares
`_$_count`, as `registerVariable` builds it. -/
def c1Reg : Registry :=
  [(scopeKey (jstr ("Counter")) (jstr ("ab12cd34")),
    ⟨[jstr ("_$_count")], some (jstr ("_$_ctx_Counter_ab12cd34")),
      [(jstr ("_$_count"), JsValue.num 0)]⟩)]

/-- C1 counterexample: `_$_count` is declared by owner `Counter`, yet a
reference whose root (outermost capitalized) owner is the distinct owner
`Count` is classified LOCAL, because the classification tests
`declaringScopeKey.startsWith(rootOwnerName)` and `Count` is a string prefix
of `Counter_ab12cd34`.  So "local exactly when the referencing owner is the
declaring owner" is false on the code. -/
theorem C1_counterexample :
    findContextByVar (jstr ("_$_count")) c1Reg
      = some (scopeKey (jstr ("Counter")) (jstr ("ab12cd34"))) ∧
    classifyReference (jstr ("_$_count")) c1Reg (jstr ("Count")) = RewriteKind.localState ∧
    jstr ("Count") ≠ jstr ("Counter") := by decide

/-- C1 (amended): for a variable `x` whose declaring registry slot is
`scopeKey A h`, the rewrite pass classifies a reference with root owner `B` as
local exactly when `B` is a string prefix of `A_h`; in particular a reference
inside the declaring owner `A` is always local, and among owner names of equal
length the classification is local exactly for `B = A`. -/
theorem C1_amended_locality (A B h x : JsStr) (reg : Registry)
    (hd : findContextByVar x reg = some (scopeKey A h)) :
    (classifyReference x reg B = RewriteKind.localState ↔ B <+: scopeKey A h) ∧
    classifyReference x reg A = RewriteKind.localState ∧
    (B.length = A.length → (classifyReference x reg B = RewriteKind.localState ↔ B = A)) := by
  have hA : A <+: scopeKey A h := by
    unfold scopeKey
    rw [List.append_assoc]
    exact List.prefix_append A _
  have key : ∀ C : JsStr, (classifyReference x reg C = RewriteKind.localState ↔
      C <+: scopeKey A h) := by
    intro C
    unfold classifyReference
    rw [hd]
    by_cases hp : C <+: scopeKey A h
    · simp [List.isPrefixOf_iff_prefix, hp]
    · simp [List.isPrefixOf_iff_prefix, hp]
  refine ⟨key B, (key A).mpr hA, fun hlen => ?_⟩
  rw [key B]
  constructor
  · intro hB
    rcases List.prefix_or_prefix_of_prefix hB hA with h1 | h1
    · exact h1.eq_of_length hlen
    · exact (h1.eq_of_length hlen.symm).symm
  · rintro rfl
    exact hA

/-- Witness for the amended C1 at a concrete input: owner `Counter`
referencing its own variable is classified local, and among equal-length
owner names locality coincides with identity. -/
theorem C1_amended_locality_witness :
    findContextByVar (jstr ("_$_count")) c1Reg
      = some (scopeKey (jstr ("Counter")) (jstr ("ab12cd34"))) ∧
    ((classifyReference (jstr ("_$_count")) c1Reg (jstr ("Counter")) = RewriteKind.localState ↔
      jstr ("Counter") <+: scopeKey (jstr ("Counter")) (jstr ("ab12cd34"))) ∧
    classifyReference (jstr ("_$_count")) c1Reg (jstr ("Counter")) = RewriteKind.localState ∧
    ((jstr ("Counter")).length = (jstr ("Counter")).length →
      (classifyReference (jstr ("_$_count")) c1Reg (jstr ("Counter")) = RewriteKind.localState ↔
        jstr ("Counter") = jstr ("Counter")))) :=
  ⟨by decide,
   C1_amended_locality (jstr ("Counter")) (jstr ("Counter")) (jstr ("ab12cd34"))
     (jstr ("_$_count")) c1Reg (by decide)⟩

/-! ## Assignment rewriting (C2) -/

/-- C2: the rewrite pass never replaces any prefixed assignment.  Line 69 of
the assignment visitor — `inheritantCMP = componentName` — writes an
undeclared identifier, which in this strict-mode ES module throws
`ReferenceError` into the visitor's empty catch before any replacement is
built, so the visitor returns with the node unmodified for EVERY input
(first conjunct), in particular at the failing input `_$_count = 5` local to
owner `Counter` (second conjunct).  The replacement the claim describes —
which the unreachable lines 70-89 would build from the source helpers
`replaceWithSetState` and `buildSpreadObject`, a call to
`setCounter_ab12cd34` with the spread-then-override functional updater — is
never emitted (third conjunct evaluates those helpers at the failing
input). -/
theorem C2_assignment_never_rewritten (pre leftName : JsStr) (right : Node)
    (rootResult : Except JsError (Option JsStr)) (reg : Registry) :
    assignmentExpressionVisitorOp pre leftName right rootResult reg = Except.ok none ∧
    assignmentExpressionVisitorOp globalMarker (jstr ("_$_count")) (Node.NumericLiteral 5)
        (Except.ok (some (jstr ("Counter")))) c1Reg = Except.ok none ∧
    replaceWithSetState (scopeKey (jstr ("Counter")) (jstr ("ab12cd34")))
        (buildSpreadObject (jstr ("_$_count")) (Node.NumericLiteral 5))
      = Node.CallExpression (Node.Identifier (jstr ("setCounter_ab12cd34")))
          [Node.ArrowFunctionExpression [Node.Identifier prevStateName]
            (Node.ObjectExpression
              [Node.SpreadElement (Node.Identifier prevStateName),
               Node.ObjectProperty (Node.Identifier (jstr ("_$_count")))
                 (Node.NumericLiteral 5) false false])] := by
  refine ⟨?_, rfl, rfl⟩
  unfold assignmentExpressionVisitorOp
  cases hp : pre.isPrefixOf leftName
  case false => rfl
  case true =>
    cases hf : findContextByVar leftName reg
    case none => rfl
    case some ctxName => cases rootResult <;> rfl

/-! ## The Counter end-to-end scenario (C3) -/

/-- The import shape `import React from 'react'`. -/
def reactDefaultImport : ImportState := ⟨some (jstr ("React")), none⟩

/-- The read of `_$_count` inside `Counter` after `identifierVisitor` rewrote
it through the local state object (`replaceWithState` with the declaring
registry key). -/
def counterRead (h : JsStr) : Node :=
  replaceWithState (jstr ("_$_count")) (scopeKey (jstr ("Counter")) h)

/-- The function `Counter` — `function Counter() { let _$_count = 0; return <read>; }` — at the moment
the owner exit fires: the declaration is still present (the binding position
is excluded from reference rewriting) and the later read has already been
rewritten. -/
def counterFn (h : JsStr) : Node :=
  Node.FunctionDeclaration (some (jstr ("Counter"))) []
    (Node.BlockStatement
      [Node.VariableDeclaration (jstr ("let"))
        [Node.VariableDeclarator (Node.Identifier (jstr ("_$_count")))
          (some (Node.NumericLiteral 0))],
       Node.ReturnStatement (some (counterRead h))])

/-- The registry after the discovery pass registered `_$_count` for
`Counter`. -/
def counterReg (h : JsStr) : Registry :=
  (registerVariable (scopeKey (jstr ("Counter")) h) (jstr ("_$_count")) (JsValue.num 0) []).1

/-- C3 counterexample (file hash `ab12cd34`): the owner-exit synthesis binds
the local state as `[counter_ab12cd34, setCounter_ab12cd34]` — the lower/upper
cased scope key, hash included — with initializer object `{_$_count: 0}`, and
the read is rewritten to `counter_ab12cd34["_$_count"]`; none of `counter`,
`setCounter`, `{count: 0}` or `counter["count"]` appears: the binding names
carry the file-hash suffix and the property keys keep the full prefixed
variable name. -/
theorem C3_counterexample :
    functionDeclarationExit globalMarker reactDefaultImport (jstr ("ab12cd34"))
        (counterReg (jstr ("ab12cd34"))) (counterFn (jstr ("ab12cd34")))
      = Node.FunctionDeclaration (some (jstr ("Counter"))) []
          (Node.BlockStatement
            [Node.VariableDeclaration (jstr ("const"))
              [Node.VariableDeclarator
                (Node.ArrayPattern
                  [Node.Identifier (jstr ("counter_ab12cd34")),
                   Node.Identifier (jstr ("setCounter_ab12cd34"))])
                (some (Node.CallExpression
                  (Node.SequenceExpression
                    [Node.NumericLiteral 0,
                     Node.MemberExpression (Node.Identifier (jstr ("React")))
                       (Node.Identifier (jstr ("useState"))) false])
                  [Node.ObjectExpression
                    [Node.ObjectProperty (Node.Identifier (jstr ("_$_count")))
                      (Node.NumericLiteral 0) false false]]))],
             Node.ReturnStatement (some (buildCtxProvider reactDefaultImport
               (counterRead (jstr ("ab12cd34"))) (jstr ("Counter_ab12cd34"))))]) ∧
    counterRead (jstr ("ab12cd34"))
      = Node.MemberExpression (Node.Identifier (jstr ("counter_ab12cd34")))
          (Node.StringLiteral (jstr ("_$_count"))) true ∧
    jstr ("counter_ab12cd34") ≠ jstr ("counter") ∧
    jstr ("setCounter_ab12cd34") ≠ jstr ("setCounter") ∧
    jstr ("_$_count") ≠ jstr ("count") :=
  ⟨rfl, rfl, by decide, by decide, by decide⟩

/-- C3 (amended): for every file hash and import shape, the transformed
`Counter` contains a single synthesized local-state declaration, bound as
`[counter_<fileHash>, setCounter_<fileHash>]` with initializer object
`{_$_count: 0}` (the property key is the full prefixed source name), the
original `let` declaration is removed, the read is rewritten to the property
access `counter_<fileHash>["_$_count"]`, the reference is classified local,
and the return value is wrapped in the owner's provider. -/
theorem C3_amended_counter (h : JsStr) (imp : ImportState) :
    functionDeclarationExit globalMarker imp h (counterReg h) (counterFn h)
      = Node.FunctionDeclaration (some (jstr ("Counter"))) []
          (Node.BlockStatement
            [buildCtxUseStateDeclaration imp
               [Node.ObjectProperty (Node.Identifier (jstr ("_$_count")))
                 (Node.NumericLiteral 0) false false]
               (scopeKey (jstr ("Counter")) h),
             Node.ReturnStatement (some (buildCtxProvider imp (counterRead h)
               (scopeKey (jstr ("Counter")) h)))]) ∧
    counterRead h
      = Node.MemberExpression
          (Node.Identifier (lowerFirst (scopeKey (jstr ("Counter")) h)))
          (Node.StringLiteral (jstr ("_$_count"))) true ∧
    lowerFirst (scopeKey (jstr ("Counter")) h) = jstr ("counter_") ++ h ∧
    jstr ("set") ++ upperFirst (scopeKey (jstr ("Counter")) h) = jstr ("setCounter_") ++ h ∧
    classifyReference (jstr ("_$_count")) (counterReg h) (jstr ("Counter"))
      = RewriteKind.localState := by
  have hl : regLookup (counterReg h) (scopeKey (jstr ("Counter")) h)
      = some ⟨[jstr ("_$_count")], some (cctxCmpNameMarker ++ scopeKey (jstr ("Counter")) h),
              [(jstr ("_$_count"), JsValue.num 0)]⟩ := by
    unfold counterReg registerVariable
    simp [regLookup, regSet, assocSet]
  refine ⟨?_, rfl, rfl, rfl, ?_⟩
  · simp only [counterFn, functionDeclarationExit, hl]
    rfl
  · have hf : findContextByVar (jstr ("_$_count")) (counterReg h)
        = some (scopeKey (jstr ("Counter")) h) := by
      unfold counterReg registerVariable
      simp [findContextByVar, regLookup, regSet, assocSet]
    simp only [classifyReference, hf]
    rw [if_pos (self_isPrefixOf_scopeKey _ _)]

/-! ## Identifier qualification (C4) -/

/-- The position of the read `_$_appMessage` in `<h1>{_$_appMessage}</h1>`: a
markup expression child.  Its parent is the JSX expression container (key
`expression`); the ancestor chain contains no attribute, opening/closing
element, or member-expression node — it is not attribute syntax. -/
def c4Pos : IdentifierPosition :=
  ⟨jstr ("_$_appMessage"), jstr ("JSXExpressionContainer"), jstr ("expression"),
   false, false,
   [jstr ("JSXExpressionContainer"), jstr ("JSXElement"), jstr ("ReturnStatement"),
    jstr ("BlockStatement"), jstr ("FunctionDeclaration"), jstr ("Program")],
   true⟩

/-- The same read placed outside markup (e.g. `return _$_appMessage;`). -/
def c4PosPlain : IdentifierPosition :=
  ⟨jstr ("_$_appMessage"), jstr ("ReturnStatement"), jstr ("argument"),
   false, false,
   [jstr ("ReturnStatement"), jstr ("BlockStatement"), jstr ("FunctionDeclaration"),
    jstr ("Program")],
   true⟩

/-- C4: the guard sequence of `identifierVisitor` REJECTS a prefixed read in a
markup expression child position — the visitor's `findParent` check skips on
any JSX ancestor, the expression container included, not only attribute
syntax — while the identical read outside markup qualifies.  This contradicts
the claim (and the package's own usage documentation, whose flagship example
reads a prefixed variable as `<h1>{_$_appMessage}</h1>`): the markup
expression child is never rewritten. -/
theorem C4_jsx_expression_child_skipped :
    identifierQualifies globalMarker c4Pos = false ∧
    (jstr ("JSXAttribute")) ∉ c4Pos.ancestorTypes ∧
    (jstr ("JSXOpeningElement")) ∉ c4Pos.ancestorTypes ∧
    (jstr ("JSXClosingElement")) ∉ c4Pos.ancestorTypes ∧
    (jstr ("JSXMemberExpression")) ∉ c4Pos.ancestorTypes ∧
    c4Pos.isReferencedIdentifier = true ∧
    globalMarker.isPrefixOf c4Pos.name = true ∧
    identifierQualifies globalMarker c4PosPlain = true := by decide

/-! ## Owner-exit collection recursion (C5) -/

/-- Body of the nested arrow-bound component `Inner`. -/
def c5InnerBody : List Node :=
  [Node.VariableDeclaration (jstr ("let"))
    [Node.VariableDeclarator (Node.Identifier (jstr ("_$_y")))
      (some (Node.NumericLiteral 1))]]

/-- Owner body holding one top-level prefixed declaration and a nested
arrow-function component with its own prefixed declaration. -/
def c5Body : List Node :=
  [Node.VariableDeclaration (jstr ("let"))
    [Node.VariableDeclarator (Node.Identifier (jstr ("_$_x")))
      (some (Node.NumericLiteral 0))],
   Node.VariableDeclaration (jstr ("const"))
    [Node.VariableDeclarator (Node.Identifier (jstr ("Inner")))
      (some (Node.ArrowFunctionExpression [] (Node.BlockStatement c5InnerBody)))]]

/-- C5 counterexample: the owner-exit collection over `c5Body` also collects
`_$_y`, which is declared inside the NESTED owner `Inner`, and removes that
nested declaration — `path.traverse` recurses into nested functions, it is
not a single-level traversal.  Under the claim the collected list would be
`[_$_x]` and `Inner`'s body would be untouched. -/
theorem C5_counterexample :
    (exitTraverseStmts globalMarker reactDefaultImport none c5Body).1
      = [(jstr ("_$_x"), some (Node.NumericLiteral 0)),
         (jstr ("_$_y"), some (Node.NumericLiteral 1))] ∧
    (exitTraverseStmts globalMarker reactDefaultImport none c5Body).2
      = [Node.VariableDeclaration (jstr ("const"))
          [Node.VariableDeclarator (Node.Identifier (jstr ("Inner")))
            (some (Node.ArrowFunctionExpression [] (Node.BlockStatement [])))]] ∧
    (jstr ("_$_y")) ∈ (exitTraverseStmts globalMarker reactDefaultImport none c5Body).1.map
      Prod.fst :=
  ⟨rfl, rfl, by decide⟩

/-- C5 (amended): the owner-exit collection recurses through the whole body
subtree.  For a body whose first statement binds a nested function
(`const v = () => { inner }` with `v` not marker-prefixed), everything the
traversal collects inside `inner` is collected by the OUTER owner's exit, and
`inner` is replaced by its own traversal result (matched nested declarations
removed, nested returns wrapped); the rest of the body is traversed
independently. -/
theorem C5_amended_recursive_collection (pre : JsStr) (imp : ImportState)
    (sn : Option JsStr) (v : JsStr) (inner rest : List Node)
    (hv : pre.isPrefixOf v = false) :
    exitTraverseStmts pre imp sn
        (Node.VariableDeclaration (jstr ("const"))
          [Node.VariableDeclarator (Node.Identifier v)
            (some (Node.ArrowFunctionExpression [] (Node.BlockStatement inner)))] :: rest)
      = ((exitTraverseStmts pre imp sn inner).1 ++ (exitTraverseStmts pre imp sn rest).1,
         Node.VariableDeclaration (jstr ("const"))
          [Node.VariableDeclarator (Node.Identifier v)
            (some (Node.ArrowFunctionExpression []
              (Node.BlockStatement (exitTraverseStmts pre imp sn inner).2)))]
          :: (exitTraverseStmts pre imp sn rest).2) := by
  rw [exitTraverseStmts]
  rw [exitTraverseDecls]
  rw [hv]
  simp [exitTraverseNode, exitTraverseDecls]

/-- Witness for the amended C5 at the concrete nested body of the
counterexample scenario. -/
theorem C5_amended_recursive_collection_witness :
    globalMarker.isPrefixOf (jstr ("Inner")) = false ∧
    exitTraverseStmts globalMarker reactDefaultImport none
        (Node.VariableDeclaration (jstr ("const"))
          [Node.VariableDeclarator (Node.Identifier (jstr ("Inner")))
            (some (Node.ArrowFunctionExpression [] (Node.BlockStatement c5InnerBody)))] :: [])
      = ((exitTraverseStmts globalMarker reactDefaultImport none c5InnerBody).1 ++
          (exitTraverseStmts globalMarker reactDefaultImport none []).1,
         Node.VariableDeclaration (jstr ("const"))
          [Node.VariableDeclarator (Node.Identifier (jstr ("Inner")))
            (some (Node.ArrowFunctionExpression []
              (Node.BlockStatement
                (exitTraverseStmts globalMarker reactDefaultImport none c5InnerBody).2)))]
          :: (exitTraverseStmts globalMarker reactDefaultImport none []).2) :=
  ⟨by decide,
   C5_amended_recursive_collection globalMarker reactDefaultImport none (jstr ("Inner"))
     c5InnerBody [] (by decide)⟩

/-! ## Import insertion point (C8) -/

/-- A file body beginning with the legacy strict-mode directive written as a
string-literal expression statement. -/
def c8Body : List Node :=
  [Node.ExpressionStatement (Node.StringLiteral useStrict),
   Node.ExpressionStatement (Node.NumericLiteral 1)]

/-- C8 counterexample: with the strict-mode directive first in the body,
injecting the missing fallback React require puts the require at the very top
of the body — BEFORE the directive — because `buildRequireDeclaration` always
uses `unshiftContainer`; the directive-aware `getInsertionIndex` (which here
computes 1) is not consulted by the import binder. -/
theorem C8_counterexample :
    bindMissingImport true false (jstr ("/src/scopeContext/gblContext.js")) c8Body
      = mkRequireDeclaration undusCoreReact (jstr ("react")) :: c8Body ∧
    getInsertionIndex c8Body = 1 ∧
    (bindMissingImport true false (jstr ("/src/scopeContext/gblContext.js")) c8Body).head?
      ≠ some (Node.ExpressionStatement (Node.StringLiteral useStrict)) := by
  refine ⟨rfl, by decide, ?_⟩
  intro hcontra
  exact Node.noConfusion (Option.some.inj hcontra)

/-- C8 (amended): the injected requires always go to the top of the file body
(index 0), even past a leading strict-mode directive: the shared-context
require first (when flagged), then the fallback React require (when flagged),
then the original body unchanged. -/
theorem C8_amended_always_top (u g : Bool) (cfp : JsStr) (body : List Node) :
    bindMissingImport u g cfp body
      = (if g then [mkRequireDeclaration undusCoreGblContext cfp] else [])
        ++ (if u then [mkRequireDeclaration undusCoreReact (jstr ("react"))] else [])
        ++ body := by
  cases u <;> cases g <;> simp [bindMissingImport, buildRequireDeclaration]

/-! ## Error neutralization (C9) -/

/-- C9: none of the modelled operations ever propagates an exception — each
returns `Except.ok` for every input, including every outcome of its fallible
internal steps (arbitrary owner-resolution results, arbitrary filesystem
outcomes); and when the internal owner-resolution step of the identifier
visitor throws, the visitor degrades to a no-op (node left unmodified). -/
theorem C9_no_exception_propagation (pre : JsStr) (pos : IdentifierPosition)
    (rootResult : Except JsError (Option JsStr)) (reg : Registry)
    (K v : JsStr) (d : JsValue)
    (fs1 fs2 fs3 fs4 : Except JsError Unit) (err : JsError) :
    (identifierVisitorOp pre pos rootResult reg).isOk = true ∧
    (registerVariableOp K v d reg).isOk = true ∧
    (generateContextContentOp fs1 fs2 reg).isOk = true ∧
    (generateLintGlobalJSOp fs3 fs4 reg).isOk = true ∧
    (postProcessOp fs1 fs2 fs3 fs4 reg).isOk = true ∧
    identifierVisitorOp pre pos (Except.error err) reg = Except.ok RewriteAction.noop := by
  refine ⟨rfl, rfl, rfl, rfl, rfl, ?_⟩
  unfold identifierVisitorOp
  cases hq : identifierQualifies pre pos <;> rfl

/-! ## Arrow-bound components and synthesis dispatch (C10) -/

/-- A whole file holding only
`const App = () => { let _$_appMessage = 'Say Hi to the Casper'; return null; }`. -/
def c10Program : List Node :=
  [Node.VariableDeclaration (jstr ("const"))
    [Node.VariableDeclarator (Node.Identifier (jstr ("App")))
      (some (Node.ArrowFunctionExpression []
        (Node.BlockStatement
          [Node.VariableDeclaration (jstr ("let"))
            [Node.VariableDeclarator (Node.Identifier (jstr ("_$_appMessage")))
              (some (Node.StringLiteral (jstr ("Say Hi to the Casper"))))],
           Node.ReturnStatement (some Node.NullLiteral)])))]]

/-- C10: for an arrow component bound to a variable, the discovery pass does
register its prefixed declaration (under owner `App`, through
`getInheritantDecComponent`), but running the synthesis dispatch — which is
attached exclusively to `FunctionDeclaration` exits — over the whole file with
that registry leaves the program byte-identical: no reactive-state declaration
is injected, the prefixed declaration is not removed, and the return value is
not wrapped in a provider. -/
theorem C10_arrow_component_not_synthesized (h : JsStr) (imp : ImportState) :
    discoverNodes globalMarker h none [] c10Program
      = [(scopeKey (jstr ("App")) h,
          ⟨[jstr ("_$_appMessage")],
           some (cctxCmpNameMarker ++ scopeKey (jstr ("App")) h),
           [(jstr ("_$_appMessage"),
             JsValue.prim (JsPrim.str (jstr ("Say Hi to the Casper"))))]⟩)] ∧
    applySynthesisNodes globalMarker imp h
        (discoverNodes globalMarker h none [] c10Program) c10Program = c10Program := by
  constructor
  · have step : discoverNodes globalMarker h none [] c10Program
        = (registerVariable (scopeKey (jstr ("App")) h) (jstr ("_$_appMessage"))
            (JsValue.prim (JsPrim.str (jstr ("Say Hi to the Casper")))) []).1 := rfl
    rw [step]
    unfold registerVariable
    simp [regLookup, regSet, assocSet]
  · rfl
